import Mathlib

set_option autoImplicit false

/-!
Shallow embedding of `kedro/extras/datasets/pandas/generic_dataset.py`
(`GenericDataSet`): a generic tabular dataset adapter that dispatches to
pandas readers/writers by `file_format` name over an fsspec filesystem.

External collaborators (the pandas namespace, the data value's methods, the
fsspec filesystem backend, and the versioning/path resolver from
`kedro.io.core`, which is outside this excerpt) are modelled as an oracle
environment `Env`; each operation returns its result together with the trace
of interactions it performed with those collaborators, and the post-state of
the adapter.  Python dictionaries are modelled as association lists; the
mutation-related claim uses a separate explicit store model further below.
-/

/-- A single-quote character (as a one-character string); the source's error
messages quote names with it. -/
def sqc : String := "\x27"

deriving instance DecidableEq for Except

/-- Values stored in option dictionaries (pandas options, fsspec open options). -/
inductive PyVal where
  | str (s : String)
  | bool (b : Bool)
  | int (n : Int)
deriving DecidableEq

/-- A Python `dict` with string keys, by value (association list). -/
abbrev Dict := List (String × PyVal)

/-- Python `d[k] = v`: replace the value of an existing key in place, else append. -/
def dictSet (d : Dict) (k : String) (v : PyVal) : Dict :=
  if d.any (fun kv => kv.fst == k) then
    d.map (fun kv => if kv.fst == k then (k, v) else kv)
  else d ++ [(k, v)]

/-- Python `d.update(other)`: set every key of `other` into `d`. -/
def dictUpdate (d other : Dict) : Dict :=
  other.foldl (fun acc kv => dictSet acc kv.fst kv.snd) d

/-- Python `d.setdefault(k, v)`: insert `(k, v)` only when `k` is absent. -/
def dictSetdefault (d : Dict) (k : String) (v : PyVal) : Dict :=
  if (d.lookup k).isSome then d else d ++ [(k, v)]

/-- A value of the `fs_args` dictionary: either a plain option value or a
nested dictionary (the reserved keys `open_args_load` / `open_args_save`). -/
inductive FsVal where
  | prim (v : PyVal)
  | dict (d : Dict)
deriving DecidableEq

/-- The `fs_args` dictionary, whose reserved keys map to nested dictionaries. -/
abbrev FsDict := List (String × FsVal)

/-- Python `fs_args.pop(k, \x7b\x7d)` specialised to the reserved keys: return the
nested dictionary stored at `k` (a fresh empty dictionary when absent; the
source assumes the reserved keys hold dictionaries) and the dictionary with
`k` removed. -/
def fsPopDict (d : FsDict) (k : String) : Dict × FsDict :=
  match d.lookup k with
  | some (.dict sub) => (sub, d.filter (fun kv => kv.fst != k))
  | some (.prim _) => ([], d.filter (fun kv => kv.fst != k))
  | none => ([], d)

/-- Python `d.setdefault(k, v)` on an `fs_args` dictionary. -/
def fsSetdefault (d : FsDict) (k : String) (v : FsVal) : FsDict :=
  if (d.lookup k).isSome then d else d ++ [(k, v)]

/-- Python `str.lower()` restricted to ASCII letters (structurally
computable, unlike `String.toLower`). -/
def pyLower (s : String) : String :=
  String.mk (s.data.map Char.toLower)

/-- Split a character list at the first occurrence of the scheme separator
`://`, when present. -/
def splitSchemeAux : List Char → Option (List Char × List Char)
  | [] => none
  | ':' :: '/' :: '/' :: rest => some ([], rest)
  | c :: rest => (splitSchemeAux rest).map (fun pr => (c :: pr.fst, pr.snd))

/-- Modelled from the spec: `get_protocol_and_path` of the path/versioning
collaborator (`kedro.io.core`, outside this excerpt) splits a URI-like
filepath into a filesystem scheme and a path, defaulting to the local
`file` scheme when no scheme prefix is present. -/
def get_protocol_and_path (filepath : String) : String × String :=
  match splitSchemeAux filepath.data with
  | some (p, rest) => (String.mk p, String.mk rest)
  | none => ("file", filepath)

/-- Modelled from the spec: `get_filepath_str` of the path/versioning
collaborator (`kedro.io.core`, outside this excerpt) renders a structured
path as a concrete string path, prefixing non-local protocols with their
scheme. -/
def get_filepath_str (path protocol : String) : String :=
  if protocol == "file" then path else protocol ++ "://" ++ path

/-- Errors: the framework's `DataSetError`, or an error raised by an external
collaborator (a pandas reader/writer raising) passing through the adapter. -/
inductive Err where
  | dataSetError (msg : String)
  | external (msg : String)
deriving DecidableEq

/-- An opaque stand-in for a `pandas.DataFrame` value. -/
structure DF where
  id : Nat
deriving DecidableEq

/-- A `kedro.io.core.Version` pair (load / save version identifiers). -/
structure Version where
  load : Option String
  save : Option String
deriving DecidableEq

/-- Observable interactions of the adapter with its external collaborators. -/
inductive Event where
  | resolveLoadPath
  | resolveSavePath
  | getattrPandas (name : String)
  | getattrData (name : String)
  | fsOpen (path : String) (args : Dict)
  | fsClose (path : String)
  | readerCall (path : String) (args : Dict)
  | writerCall (path : String) (args : Dict)
  | fsExistsCall (path : String)
  | invalidateCache (path : String)
deriving DecidableEq

/-- Modelled from the spec: the oracle for the external collaborators.
`pandas_has name` states whether `getattr(pd, name, None)` yields a reader;
`data_has name` whether the value being saved has a method `name`;
`load_path` / `save_path` are the versioning collaborator's
`_get_load_path()` / `_get_save_path()` (which may fail with a
`DataSetError`, e.g. when no versioned instance exists yet);
`reader` / `writer` are the outcome of the invoked pandas reader/writer
(normal return, or an exception modelled as `Except.error`);
`fs_exists` is the filesystem backend's existence predicate. -/
structure Env where
  pandas_has : String → Bool
  data_has : String → Bool
  load_path : Except Err String
  save_path : Except Err String
  reader : Except String DF
  writer : Except String Unit
  fs_exists : String → Bool

/-- The fixed set of pandas targets that do not read/write via a filepath
(`NON_FILE_SYSTEM_TARGETS` in the source). -/
def NON_FILE_SYSTEM_TARGETS : List String :=
  ["clipboard", "numpy", "sql", "period", "records", "timestamp", "xarray", "sql_table"]

/-- The adapter's state after construction (the `self._…` attributes of
`GenericDataSet`; leading underscores dropped). -/
structure GenericDataSet where
  file_format : String
  protocol : String
  filepath : String
  load_args : Dict
  save_args : Dict
  fs_open_args_load : Dict
  fs_open_args_save : Dict
  version : Option Version
  fs_args : FsDict
  credentials : Dict
deriving DecidableEq

/-- Result of running one adapter operation: the returned value or raised
error, the trace of external interactions, and the adapter state afterwards. -/
structure Outcome (α : Type) where
  result : Except Err α
  events : List Event
  post : GenericDataSet
deriving DecidableEq

/-- The message of the unsupported-target error (`_ensure_file_system_target`). -/
def unsupported_target_msg (fmt : String) : String :=
  "Cannot create a dataset of file_format " ++ sqc ++ fmt ++ sqc ++
    " as it does not support a filepath target/source."

/-- The message of the reader-not-found error (`_load`). -/
def read_method_missing_msg (fmt : String) : String :=
  "Unable to retrieve " ++ sqc ++ "pandas.read_" ++ fmt ++ sqc ++
    " method, please ensure that your " ++ sqc ++ "file_format" ++ sqc ++
    " parameter has been defined correctly as per the Pandas API " ++
    "https://pandas.pydata.org/docs/reference/io.html"

/-- The message of the writer-not-found error (`_save`). -/
def to_method_missing_msg (fmt : String) : String :=
  "Unable to retrieve " ++ sqc ++ "pandas.DataFrame.to_" ++ fmt ++ sqc ++
    " method, please ensure that your " ++ sqc ++ "file_format" ++ sqc ++
    " parameter has been defined correctly as per the Pandas API " ++
    "https://pandas.pydata.org/docs/reference/api/pandas.DataFrame.html"

/-- `GenericDataSet._ensure_file_system_target`: fail fast when the format is
a known non-filesystem target. -/
def GenericDataSet.ensure_file_system_target (ds : GenericDataSet) : Except Err Unit :=
  if NON_FILE_SYSTEM_TARGETS.contains ds.file_format then
    .error (.dataSetError (unsupported_target_msg ds.file_format))
  else .ok ()

/-- `GenericDataSet.__init__`: normalise the format to lowercase, deep-copy
`fs_args` / `credentials`, pop the reserved open-args keys, split the
protocol off the filepath, merge `load_args` / `save_args` over the class
defaults (both empty), and default the save-direction open mode to `w`.
The constructor has no failure path, hence always returns `Except.ok`. -/
def GenericDataSet.init (filepath file_format : String)
    (load_args save_args : Option Dict) (version : Option Version)
    (credentials : Option Dict) (fs_args : Option FsDict) :
    Except Err GenericDataSet :=
  let ff := pyLower file_format
  let fs0 := fs_args.getD []
  let pl := fsPopDict fs0 "open_args_load"
  let ps := fsPopDict pl.snd "open_args_save"
  let creds := credentials.getD []
  let pp := get_protocol_and_path filepath
  let fs1 := if pp.fst == "file" then fsSetdefault ps.snd "auto_mkdir" (.prim (.bool true)) else ps.snd
  let la := dictUpdate [] (load_args.getD [])
  let sa := dictUpdate [] (save_args.getD [])
  let oas := dictSetdefault ps.fst "mode" (.str "w")
  .ok { file_format := ff
      , protocol := pp.fst
      , filepath := pp.snd
      , load_args := la
      , save_args := sa
      , fs_open_args_load := pl.fst
      , fs_open_args_save := oas
      , version := version
      , fs_args := fs1
      , credentials := creds }

/-- `GenericDataSet._load`: guard against non-filesystem targets, resolve the
load path, look up `pandas.read_<file_format>`, and when it exists open the
path (load-direction open options) and call the reader on the handle with the
merged load options; the `with` block closes the handle whether the reader
returns or raises.  When the reader is absent, raise the reader-not-found
error without opening any file. -/
def GenericDataSet.load (env : Env) (ds : GenericDataSet) : Outcome DF :=
  match ds.ensure_file_system_target with
  | .error e => { result := .error e, events := [], post := ds }
  | .ok () =>
    match env.load_path with
    | .error e => { result := .error e, events := [.resolveLoadPath], post := ds }
    | .ok p =>
      let load_path := get_filepath_str p ds.protocol
      let name := "read_" ++ ds.file_format
      if env.pandas_has name then
        match env.reader with
        | .ok df =>
          { result := .ok df
          , events := [.resolveLoadPath, .getattrPandas name,
                       .fsOpen load_path ds.fs_open_args_load,
                       .readerCall load_path ds.load_args,
                       .fsClose load_path]
          , post := ds }
        | .error m =>
          { result := .error (.external m)
          , events := [.resolveLoadPath, .getattrPandas name,
                       .fsOpen load_path ds.fs_open_args_load,
                       .readerCall load_path ds.load_args,
                       .fsClose load_path]
          , post := ds }
      else
        { result := .error (.dataSetError (read_method_missing_msg ds.file_format))
        , events := [.resolveLoadPath, .getattrPandas name]
        , post := ds }

/-- `GenericDataSet._invalidate_cache`: the path whose filesystem cache entry
is invalidated — the adapter's own (unversioned) `_filepath`, stringified. -/
def GenericDataSet.invalidate_cache_path (ds : GenericDataSet) : String :=
  get_filepath_str ds.filepath ds.protocol

/-- `GenericDataSet._save`: guard against non-filesystem targets, resolve the
save path, look up `to_<file_format>` on the data value, and when it exists
open the path (save-direction open options) and call the writer with the
handle as sole positional argument and the merged save options; on normal
return of the writer, `_invalidate_cache()` runs (inside the `with` block,
before the close).  The `with` block closes the handle whether the writer
returns or raises.  When the writer is absent, raise the writer-not-found
error without opening any file. -/
def GenericDataSet.save (env : Env) (ds : GenericDataSet) : Outcome Unit :=
  match ds.ensure_file_system_target with
  | .error e => { result := .error e, events := [], post := ds }
  | .ok () =>
    match env.save_path with
    | .error e => { result := .error e, events := [.resolveSavePath], post := ds }
    | .ok p =>
      let save_path := get_filepath_str p ds.protocol
      let name := "to_" ++ ds.file_format
      if env.data_has name then
        match env.writer with
        | .ok () =>
          { result := .ok ()
          , events := [.resolveSavePath, .getattrData name,
                       .fsOpen save_path ds.fs_open_args_save,
                       .writerCall save_path ds.save_args,
                       .invalidateCache ds.invalidate_cache_path,
                       .fsClose save_path]
          , post := ds }
        | .error m =>
          { result := .error (.external m)
          , events := [.resolveSavePath, .getattrData name,
                       .fsOpen save_path ds.fs_open_args_save,
                       .writerCall save_path ds.save_args,
                       .fsClose save_path]
          , post := ds }
      else
        { result := .error (.dataSetError (to_method_missing_msg ds.file_format))
        , events := [.resolveSavePath, .getattrData name]
        , post := ds }

/-- `GenericDataSet._exists`: try to resolve the load path; a `DataSetError`
from the resolver is caught and turned into `false`; otherwise delegate to
the filesystem backend's existence predicate on the resolved path. -/
def GenericDataSet.existsOp (env : Env) (ds : GenericDataSet) : Outcome Bool :=
  match env.load_path with
  | .error (.dataSetError _) => { result := .ok false, events := [.resolveLoadPath], post := ds }
  | .error e => { result := .error e, events := [.resolveLoadPath], post := ds }
  | .ok p =>
    let lp := get_filepath_str p ds.protocol
    { result := .ok (env.fs_exists lp), events := [.resolveLoadPath, .fsExistsCall lp], post := ds }

/-- The snapshot returned by `GenericDataSet._describe`. -/
structure DescribeInfo where
  file_format : String
  filepath : String
  protocol : String
  load_args : Dict
  save_args : Dict
  version : Option Version
deriving DecidableEq

/-- `GenericDataSet._describe`: a read-only snapshot of the configuration;
no external interaction. -/
def GenericDataSet.describe (ds : GenericDataSet) : Outcome DescribeInfo :=
  { result := .ok { file_format := ds.file_format
                  , filepath := ds.filepath
                  , protocol := ds.protocol
                  , load_args := ds.load_args
                  , save_args := ds.save_args
                  , version := ds.version }
  , events := []
  , post := ds }

/-- `GenericDataSet._release`: the base-class release (no filesystem
interaction in this excerpt) followed by `_invalidate_cache()`. -/
def GenericDataSet.release (ds : GenericDataSet) : Outcome Unit :=
  { result := .ok ()
  , events := [.invalidateCache ds.invalidate_cache_path]
  , post := ds }

/-!
Heap model for the construction: Python dictionaries as mutable objects in an
explicit store, so that the absence of caller-visible mutation in `__init__`
(deep copies before `pop` / `setdefault` / `update`) is an actual theorem
rather than a consequence of value semantics.
-/

/-- A reference into the store (a Python object identity). -/
abbrev Ref := Nat

/-- A heap value: a primitive, or a reference to another dictionary. -/
inductive HVal where
  | prim (v : PyVal)
  | ref (r : Ref)
deriving DecidableEq

/-- A dictionary in the heap model. -/
abbrev HDict := List (String × HVal)

/-- The store: dictionaries addressed by allocation order. -/
abbrev Store := List HDict

/-- Dereference; unallocated references read as empty. -/
def Store.read (st : Store) (r : Ref) : HDict := (st[r]?).getD []

/-- Allocate a fresh dictionary, returning its reference. -/
def Store.alloc (st : Store) (d : HDict) : Store × Ref := (st ++ [d], st.length)

/-- Overwrite the dictionary at an existing reference. -/
def Store.write (st : Store) (r : Ref) (d : HDict) : Store := st.set r d

/-- One step of `deepcopy`: primitives are copied as values, a referenced
dictionary is cloned into a fresh cell. -/
def copyVal (st : Store) : HVal → Store × HVal
  | .prim v => (st, .prim v)
  | .ref r => (st ++ [st.read r], .ref st.length)

/-- Copy the entries of a dictionary, cloning every referenced sub-dictionary. -/
def copyEntries (st : Store) : HDict → Store × HDict
  | [] => (st, [])
  | (k, v) :: rest =>
    let cv := copyVal st v
    let cr := copyEntries cv.fst rest
    (cr.fst, (k, cv.snd) :: cr.snd)

/-- Python `deepcopy` of a dictionary as used by the adapter (values are
primitives or dictionaries of primitives): fresh copies of all nested
dictionaries, then a fresh top-level dictionary. -/
def deepcopyDict (st : Store) (r : Ref) : Store × Ref :=
  let ce := copyEntries st (st.read r)
  Store.alloc ce.fst ce.snd

/-- Branch on the looked-up value for `pop`: a referenced sub-dictionary is
returned and the key removed in place; a missing key yields a fresh empty
dictionary (the `pop` default). -/
def hPopGo (st : Store) (r : Ref) (k : String) : Option HVal → Store × Ref
  | some (.ref r2) =>
      (Store.write st r ((Store.read st r).filter (fun kv => kv.fst != k)), r2)
  | some (.prim _) =>
      Store.alloc (Store.write st r ((Store.read st r).filter (fun kv => kv.fst != k))) []
  | none => Store.alloc st []

/-- Python `d.pop(k, \x7b\x7d)` on a store dictionary. -/
def hPopRef (st : Store) (r : Ref) (k : String) : Store × Ref :=
  hPopGo st r k ((Store.read st r).lookup k)

/-- Python `d.setdefault(k, v)` on a store dictionary: in-place insert when
the key is absent. -/
def hSetdefault (st : Store) (r : Ref) (k : String) (v : HVal) : Store :=
  if ((Store.read st r).lookup k).isSome then st
  else Store.write st r (Store.read st r ++ [(k, v)])

/-- Python `d[k] = v` on a heap dictionary value. -/
def hDictSet (d : HDict) (k : String) (v : HVal) : HDict :=
  if d.any (fun kv => kv.fst == k) then
    d.map (fun kv => if kv.fst == k then (k, v) else kv)
  else d ++ [(k, v)]

/-- Python `d.update(src)` in place at reference `r`. -/
def hUpdate (st : Store) (r : Ref) (src : HDict) : Store :=
  Store.write st r (src.foldl (fun acc kv => hDictSet acc kv.fst kv.snd) (Store.read st r))

/-- Python `deepcopy(x) or \x7b\x7d`: a fresh empty dictionary for `None`, a deep
copy otherwise. -/
def dcOrEmpty (st : Store) : Option Ref → Store × Ref
  | none => Store.alloc st []
  | some r => deepcopyDict st r

/-- Merge caller options over the class defaults: `deepcopy(DEFAULTS)` (both
default dictionaries are empty) followed by `update` when the caller passed a
dictionary. -/
def hMergeDefaults (st : Store) : Option Ref → Store × Ref
  | none => Store.alloc st []
  | some r =>
    let al := Store.alloc st []
    (hUpdate al.fst al.snd (Store.read al.fst r), al.snd)

/-- The references produced by the heap-model construction. -/
structure HInitResult where
  store : Store
  fs_args : Ref
  fs_open_args_load : Ref
  fs_open_args_save : Ref
  credentials : Ref
  load_args : Ref
  save_args : Ref

/-- `GenericDataSet.__init__` over the explicit store, following the source
line by line: deep-copy `fs_args`, pop the two reserved keys from the copy,
deep-copy `credentials`, default `auto_mkdir` on the copy for the local
protocol, build `load_args` / `save_args` over fresh copies of the (empty)
class defaults, and default the save-direction open mode to `w` in place. -/
def GenericDataSet.initH (st : Store) (filepath : String)
    (load_args save_args credentials fs_args : Option Ref) : HInitResult :=
  let s1 := dcOrEmpty st fs_args
  let s2 := hPopRef s1.fst s1.snd "open_args_load"
  let s3 := hPopRef s2.fst s1.snd "open_args_save"
  let s4 := dcOrEmpty s3.fst credentials
  let pp := get_protocol_and_path filepath
  let s5 := if pp.fst == "file"
    then hSetdefault s4.fst s1.snd "auto_mkdir" (.prim (.bool true))
    else s4.fst
  let s6 := hMergeDefaults s5 load_args
  let s7 := hMergeDefaults s6.fst save_args
  let s8 := hSetdefault s7.fst s3.snd "mode" (.prim (.str "w"))
  { store := s8
  , fs_args := s1.snd
  , fs_open_args_load := s2.snd
  , fs_open_args_save := s3.snd
  , credentials := s4.snd
  , load_args := s6.snd
  , save_args := s7.snd }

/-- Event classifier: filesystem-open events. -/
def isOpenEv : Event → Bool
  | .fsOpen _ _ => true
  | _ => false

/-- Event classifier: filesystem-close events. -/
def isCloseEv : Event → Bool
  | .fsClose _ => true
  | _ => false

/-- All cells below `n` agree between the two stores, and the second store is
at least `n` long. -/
def Pres (n : Nat) (st st2 : Store) : Prop :=
  n ≤ st2.length ∧ ∀ i, i < n → Store.read st2 i = Store.read st i

/-- All references stored in a dictionary point at or above `n`. -/
def RefsGE (n : Nat) (d : HDict) : Prop :=
  ∀ kv ∈ d, ∀ r, kv.snd = HVal.ref r → n ≤ r

/-!
Helper lemmas for the store model, followed by one theorem per claim.
-/

theorem pres_refl (n : Nat) (st : Store) (h : n ≤ st.length) : Pres n st st :=
  ⟨h, fun _ _ => rfl⟩

theorem pres_trans {n : Nat} {st1 st2 st3 : Store}
    (h1 : Pres n st1 st2) (h2 : Pres n st2 st3) : Pres n st1 st3 :=
  ⟨h2.1, fun i hi => (h2.2 i hi).trans (h1.2 i hi)⟩

theorem read_alloc_lt (st : Store) (d : HDict) (i : Nat) (h : i < st.length) :
    Store.read (st ++ [d]) i = Store.read st i := by
  simp [Store.read, List.getElem?_append, h]

theorem read_write_ne (st : Store) (r : Ref) (d : HDict) (i : Nat) (h : i ≠ r) :
    Store.read (Store.write st r d) i = Store.read st i := by
  simp [Store.read, Store.write, List.getElem?_set_ne (fun hh => h hh.symm)]

theorem read_write_self (st : Store) (r : Ref) (d : HDict) (h : r < st.length) :
    Store.read (Store.write st r d) r = d := by
  simp [Store.read, Store.write, List.getElem?_set_eq_of_lt d h]

theorem pres_alloc (n : Nat) (st : Store) (d : HDict) (h : n ≤ st.length) :
    Pres n st (Store.alloc st d).fst := by
  refine ⟨by simp [Store.alloc]; omega, fun i hi => read_alloc_lt st d i (by omega)⟩

theorem pres_write (n : Nat) (st : Store) (r : Ref) (d : HDict)
    (h : n ≤ st.length) (hr : n ≤ r) : Pres n st (Store.write st r d) := by
  refine ⟨by simp [Store.write]; omega, fun i hi => read_write_ne st r d i (by omega)⟩

theorem copyEntries_spec (n : Nat) (es : HDict) : ∀ (st : Store), n ≤ st.length →
    Pres n st (copyEntries st es).fst ∧
    ∀ kv ∈ (copyEntries st es).snd, ∀ r, kv.snd = HVal.ref r → n ≤ r := by
  induction es with
  | nil =>
    intro st h
    exact ⟨⟨h, fun i _ => rfl⟩, by simp [copyEntries]⟩
  | cons kv rest ih =>
    intro st h
    rcases kv with ⟨k, v⟩
    rcases v with v | r
    · have hrec := ih st h
      refine ⟨hrec.1, ?_⟩
      intro kv2 hkv2 r2 hr2
      simp [copyEntries, copyVal] at hkv2
      rcases hkv2 with hkv2 | hkv2
      · rw [hkv2] at hr2; cases hr2
      · exact hrec.2 kv2 (by simpa [copyEntries] using hkv2) r2 hr2
    · have hlen : n ≤ (st ++ [Store.read st r]).length := by simp; omega
      have hrec := ih (st ++ [Store.read st r]) hlen
      constructor
      · refine pres_trans ⟨hlen, fun i hi => read_alloc_lt st _ i (by omega)⟩ ?_
        simpa [copyEntries, copyVal] using hrec.1
      · intro kv2 hkv2 r2 hr2
        simp [copyEntries, copyVal] at hkv2
        rcases hkv2 with hkv2 | hkv2
        · rw [hkv2] at hr2
          cases hr2
          omega
        · exact hrec.2 kv2 hkv2 r2 hr2

theorem deepcopyDict_spec (n : Nat) (st : Store) (r : Ref) (h : n ≤ st.length) :
    Pres n st (deepcopyDict st r).fst ∧ n ≤ (deepcopyDict st r).snd ∧
    (deepcopyDict st r).snd < (deepcopyDict st r).fst.length ∧
    RefsGE n (Store.read (deepcopyDict st r).fst (deepcopyDict st r).snd) := by
  have hce := copyEntries_spec n (Store.read st r) st h
  have hlen : n ≤ (copyEntries st (Store.read st r)).fst.length := hce.1.1
  refine ⟨?_, ?_, ?_, ?_⟩
  · exact pres_trans hce.1 (pres_alloc n _ _ hlen)
  · simp [deepcopyDict, Store.alloc]; omega
  · simp [deepcopyDict, Store.alloc]
  · have hrd : Store.read (deepcopyDict st r).fst (deepcopyDict st r).snd
        = (copyEntries st (Store.read st r)).snd := by
      simp [deepcopyDict, Store.alloc, Store.read]
    rw [hrd]
    exact hce.2

theorem dcOrEmpty_spec (n : Nat) (st : Store) (o : Option Ref) (h : n ≤ st.length) :
    Pres n st (dcOrEmpty st o).fst ∧ n ≤ (dcOrEmpty st o).snd ∧
    (dcOrEmpty st o).snd < (dcOrEmpty st o).fst.length ∧
    RefsGE n (Store.read (dcOrEmpty st o).fst (dcOrEmpty st o).snd) := by
  rcases o with _ | r
  · refine ⟨pres_alloc n st [] h, by simp [dcOrEmpty, Store.alloc]; omega,
      by simp [dcOrEmpty, Store.alloc], ?_⟩
    have hempty : Store.read (st ++ [[]]) st.length = [] := by
      simp [Store.read]
    simp only [dcOrEmpty, Store.alloc]
    rw [hempty]
    intro kv hkv; cases hkv
  · exact deepcopyDict_spec n st r h

theorem lookup_mem {d : HDict} {k : String} {v : HVal}
    (h : d.lookup k = some v) : (k, v) ∈ d := by
  induction d with
  | nil => cases h
  | cons kv rest ih =>
    rcases kv with ⟨k1, v1⟩
    by_cases hk : k = k1
    · subst hk
      simp [List.lookup] at h
      simp [h]
    · have hne : (k == k1) = false := by simp [hk]
      simp [List.lookup, hne] at h
      exact List.mem_cons_of_mem _ (ih h)

theorem refsGE_filter (n : Nat) (d : HDict) (p : String × HVal → Bool)
    (h : RefsGE n d) : RefsGE n (d.filter p) :=
  fun kv hkv r hr => h kv (List.mem_of_mem_filter hkv) r hr

theorem hPopRef_spec (n : Nat) (st : Store) (r : Ref) (k : String)
    (h : n ≤ st.length) (hr : n ≤ r) (hrlt : r < st.length)
    (hd : RefsGE n (Store.read st r)) :
    Pres n st (hPopRef st r k).fst ∧ n ≤ (hPopRef st r k).snd ∧
    r < (hPopRef st r k).fst.length ∧
    RefsGE n (Store.read (hPopRef st r k).fst r) := by
  unfold hPopRef
  rcases hl : (Store.read st r).lookup k with _ | v
  · refine ⟨?_, ?_, ?_, ?_⟩
    · simpa [hPopGo] using pres_alloc n st [] h
    · simpa [hPopGo, Store.alloc] using h
    · simp [hPopGo, Store.alloc]
      exact Nat.lt_succ_of_lt hrlt
    · simp only [hPopGo, Store.alloc]
      rw [read_alloc_lt st [] r hrlt]
      exact hd
  · rcases v with v | r2
    · have hw : n ≤ (Store.write st r ((Store.read st r).filter (fun kv => kv.fst != k))).length := by
        simpa [Store.write, List.length_set] using h
      refine ⟨?_, ?_, ?_, ?_⟩
      · simpa [hPopGo] using pres_trans (pres_write n st r _ h hr) (pres_alloc n _ [] hw)
      · simp [hPopGo, Store.alloc, Store.write, List.length_set]
        exact h
      · simp [hPopGo, Store.alloc, Store.write, List.length_set]
        exact Nat.lt_succ_of_lt hrlt
      · simp only [hPopGo, Store.alloc]
        rw [read_alloc_lt _ [] r (by simpa [Store.write, List.length_set] using hrlt)]
        rw [read_write_self st r _ hrlt]
        exact refsGE_filter n _ _ hd
    · refine ⟨?_, ?_, ?_, ?_⟩
      · simpa [hPopGo] using pres_write n st r _ h hr
      · simpa [hPopGo] using hd (k, HVal.ref r2) (lookup_mem hl) r2 rfl
      · simpa [hPopGo, Store.write, List.length_set] using hrlt
      · simp only [hPopGo]
        rw [read_write_self st r _ hrlt]
        exact refsGE_filter n _ _ hd

theorem hSetdefault_spec (n : Nat) (st : Store) (r : Ref) (k : String) (v : HVal)
    (h : n ≤ st.length) (hr : n ≤ r) : Pres n st (hSetdefault st r k v) := by
  unfold hSetdefault
  by_cases hc : (((Store.read st r).lookup k).isSome : Prop)
  · simp only [hc, if_true]
    exact ⟨h, fun i _ => rfl⟩
  · simp only [hc, if_false]
    exact pres_write n st r _ h hr

theorem hMergeDefaults_spec (n : Nat) (st : Store) (o : Option Ref) (h : n ≤ st.length) :
    Pres n st (hMergeDefaults st o).fst := by
  rcases o with _ | r
  · exact pres_alloc n st [] h
  · refine pres_trans (pres_alloc n st [] h) ?_
    simp only [hMergeDefaults, hUpdate]
    refine pres_write n _ _ _ ?_ ?_
    · simp [Store.alloc]; omega
    · simp [Store.alloc]; omega

/-- A concrete oracle for instantiations: no readers or writers anywhere,
paths resolve, reader/writer calls raise, nothing exists. -/
def envNone : Env :=
  { pandas_has := fun _ => false
  , data_has := fun _ => false
  , load_path := .ok "data/f.csv"
  , save_path := .ok "data/f.csv"
  , reader := .error "reader raised"
  , writer := .error "writer raised"
  , fs_exists := fun _ => false }

/-- A concrete oracle whose versioning collaborator fails to resolve paths
(no versioned instance has ever been saved). -/
def envNoVersion : Env :=
  { envNone with
    load_path := .error (.dataSetError "no versions")
  , save_path := .error (.dataSetError "no versions") }

/-- A concrete oracle for a fully successful versioned run: readers and
writers exist and succeed, and paths resolve to a versioned location distinct
from the dataset's base filepath. -/
def envSaveOk : Env :=
  { pandas_has := fun _ => true
  , data_has := fun _ => true
  , load_path := .ok "data/f.csv/v1/f.csv"
  , save_path := .ok "data/f.csv/v1/f.csv"
  , reader := .ok { id := 0 }
  , writer := .ok ()
  , fs_exists := fun _ => true }

/-- A concrete csv adapter state. -/
def dsCsv : GenericDataSet :=
  { file_format := "csv"
  , protocol := "file"
  , filepath := "data/f.csv"
  , load_args := []
  , save_args := []
  , fs_open_args_load := []
  , fs_open_args_save := [("mode", .str "w")]
  , version := none
  , fs_args := [("auto_mkdir", .prim (.bool true))]
  , credentials := [] }

/-- A concrete clipboard adapter state (a non-filesystem target). -/
def dsClipboard : GenericDataSet :=
  { dsCsv with file_format := "clipboard" }

/-- A concrete versioned csv adapter state. -/
def dsVersioned : GenericDataSet :=
  { dsCsv with version := some { load := none, save := some "v1" } }

/-- A concrete caller store for the heap-model construction: cell 0 is the
caller's `fs_args` (whose reserved key points at cell 1), cell 1 the caller's
`open_args_save`, cell 2 the caller's `load_args`. -/
def stCaller : Store :=
  [ [("open_args_save", HVal.ref 1), ("project", HVal.prim (PyVal.str "p"))]
  , [("compression", HVal.prim (PyVal.str "gzip"))]
  , [("sep", HVal.prim (PyVal.str ";"))] ]

/-- C1: for every `file_format` in the fixed non-filesystem set, both the
load and the save operation raise the unsupported-target `DataSetError` with
an empty interaction trace — no path resolution, no open, no exists call,
before any contact with the filesystem backend or the versioning
collaborator. -/
theorem C1_non_filesystem_targets_rejected_before_backend
    (env : Env) (ds : GenericDataSet)
    (h : ds.file_format ∈ NON_FILE_SYSTEM_TARGETS) :
    (GenericDataSet.load env ds).result
        = .error (.dataSetError (unsupported_target_msg ds.file_format)) ∧
    (GenericDataSet.load env ds).events = [] ∧
    (GenericDataSet.save env ds).result
        = .error (.dataSetError (unsupported_target_msg ds.file_format)) ∧
    (GenericDataSet.save env ds).events = [] := by
  simp [GenericDataSet.load, GenericDataSet.save, GenericDataSet.ensure_file_system_target, h]

/-- Witness for C1 at the concrete `clipboard` format. -/
theorem C1_witness :
    dsClipboard.file_format ∈ NON_FILE_SYSTEM_TARGETS ∧
    (GenericDataSet.load envNone dsClipboard).events = [] ∧
    (GenericDataSet.save envNone dsClipboard).events = [] :=
  ⟨by decide,
   (C1_non_filesystem_targets_rejected_before_backend envNone dsClipboard (by decide)).2.1,
   (C1_non_filesystem_targets_rejected_before_backend envNone dsClipboard (by decide)).2.2.2⟩

/-- C2: for a format outside the non-filesystem set with a resolved load
path, the load resolves the path first and then looks up
`read_<file_format>` on the pandas namespace; the reader-not-found
`DataSetError` is raised exactly when that lookup yields nothing, in which
case no file is opened; and the message contains the exact convention string
`pandas.read_<file_format>`. -/
theorem C2_reader_lookup_convention_and_error
    (env : Env) (ds : GenericDataSet) (p : String)
    (h1 : ds.file_format ∉ NON_FILE_SYSTEM_TARGETS)
    (h2 : env.load_path = .ok p) :
    ((GenericDataSet.load env ds).events.take 2
        = [.resolveLoadPath, .getattrPandas ("read_" ++ ds.file_format)]) ∧
    ((GenericDataSet.load env ds).result
        = .error (.dataSetError (read_method_missing_msg ds.file_format))
      ↔ env.pandas_has ("read_" ++ ds.file_format) = false) ∧
    (env.pandas_has ("read_" ++ ds.file_format) = false →
      ∀ q args, Event.fsOpen q args ∉ (GenericDataSet.load env ds).events) ∧
    (∃ a b, read_method_missing_msg ds.file_format
        = a ++ ("pandas.read_" ++ ds.file_format) ++ b) := by
  refine ⟨?_, ?_, ?_, ?_⟩
  · simp only [GenericDataSet.load, GenericDataSet.ensure_file_system_target]
    rcases hp : env.pandas_has ("read_" ++ ds.file_format)
    · simp [h1, h2, hp]
    · simp [h1, h2, hp]
      rcases env.reader <;> simp
  · simp only [GenericDataSet.load, GenericDataSet.ensure_file_system_target]
    rcases hp : env.pandas_has ("read_" ++ ds.file_format)
    · simp [h1, h2, hp]
    · simp [h1, h2, hp]
      rcases env.reader <;> simp
  · intro hp q args
    simp only [GenericDataSet.load, GenericDataSet.ensure_file_system_target]
    simp [h1, h2, hp]
  · exact ⟨"Unable to retrieve " ++ sqc,
      sqc ++ " method, please ensure that your " ++ sqc ++ "file_format" ++ sqc ++
        " parameter has been defined correctly as per the Pandas API " ++
        "https://pandas.pydata.org/docs/reference/io.html",
      by simp [read_method_missing_msg, String.append_assoc]⟩

/-- Witness for C2 at the concrete csv state with no reader available. -/
theorem C2_witness :
    dsCsv.file_format ∉ NON_FILE_SYSTEM_TARGETS ∧
    ((GenericDataSet.load envNone dsCsv).result
        = .error (.dataSetError (read_method_missing_msg dsCsv.file_format))
      ↔ envNone.pandas_has ("read_" ++ dsCsv.file_format) = false) :=
  ⟨by decide,
   (C2_reader_lookup_convention_and_error envNone dsCsv "data/f.csv" (by decide) rfl).2.1⟩

/-- C3: for a format outside the non-filesystem set with a resolved save
path, the save resolves the path and then looks up `to_<file_format>` on the
data value (not on the pandas namespace); the writer-not-found
`DataSetError` is raised exactly when that lookup yields nothing, in which
case no file is opened; when the method exists it is called with the opened
handle as sole positional argument and the merged save options; and the
message contains the exact convention string
`pandas.DataFrame.to_<file_format>`. -/
theorem C3_writer_lookup_convention_and_error
    (env : Env) (ds : GenericDataSet) (p : String)
    (h1 : ds.file_format ∉ NON_FILE_SYSTEM_TARGETS)
    (h2 : env.save_path = .ok p) :
    ((GenericDataSet.save env ds).events.take 2
        = [.resolveSavePath, .getattrData ("to_" ++ ds.file_format)]) ∧
    ((GenericDataSet.save env ds).result
        = .error (.dataSetError (to_method_missing_msg ds.file_format))
      ↔ env.data_has ("to_" ++ ds.file_format) = false) ∧
    (env.data_has ("to_" ++ ds.file_format) = false →
      ∀ q args, Event.fsOpen q args ∉ (GenericDataSet.save env ds).events) ∧
    (env.data_has ("to_" ++ ds.file_format) = true →
      Event.fsOpen (get_filepath_str p ds.protocol) ds.fs_open_args_save
          ∈ (GenericDataSet.save env ds).events ∧
      Event.writerCall (get_filepath_str p ds.protocol) ds.save_args
          ∈ (GenericDataSet.save env ds).events) ∧
    (∃ a b, to_method_missing_msg ds.file_format
        = a ++ ("pandas.DataFrame.to_" ++ ds.file_format) ++ b) := by
  refine ⟨?_, ?_, ?_, ?_, ?_⟩
  · simp only [GenericDataSet.save, GenericDataSet.ensure_file_system_target]
    rcases hp : env.data_has ("to_" ++ ds.file_format)
    · simp [h1, h2, hp]
    · simp [h1, h2, hp]
      rcases env.writer <;> simp
  · simp only [GenericDataSet.save, GenericDataSet.ensure_file_system_target]
    rcases hp : env.data_has ("to_" ++ ds.file_format)
    · simp [h1, h2, hp]
    · simp [h1, h2, hp]
      rcases env.writer <;> simp
  · intro hp q args
    simp only [GenericDataSet.save, GenericDataSet.ensure_file_system_target]
    simp [h1, h2, hp]
  · intro hp
    simp only [GenericDataSet.save, GenericDataSet.ensure_file_system_target]
    rcases env.writer <;> simp [h1, h2, hp]
  · exact ⟨"Unable to retrieve " ++ sqc,
      sqc ++ " method, please ensure that your " ++ sqc ++ "file_format" ++ sqc ++
        " parameter has been defined correctly as per the Pandas API " ++
        "https://pandas.pydata.org/docs/reference/api/pandas.DataFrame.html",
      by simp [to_method_missing_msg, String.append_assoc]⟩

/-- Witness for C3 at the concrete csv state with no writer available. -/
theorem C3_witness :
    dsCsv.file_format ∉ NON_FILE_SYSTEM_TARGETS ∧
    ((GenericDataSet.save envNone dsCsv).result
        = .error (.dataSetError (to_method_missing_msg dsCsv.file_format))
      ↔ envNone.data_has ("to_" ++ dsCsv.file_format) = false) :=
  ⟨by decide,
   (C3_writer_lookup_convention_and_error envNone dsCsv "data/f.csv" (by decide) rfl).2.1⟩

/-- C4: construction never raises for any `file_format` string (including
strings naming readers/writers pandas does not provide, and strings in the
non-filesystem set); the unsupported-target, reader-not-found and
writer-not-found errors surface only when load or save is invoked on the
constructed adapter. -/
theorem C4_construction_never_raises
    (fp ff : String) (la sa : Option Dict) (v : Option Version)
    (cr : Option Dict) (fa : Option FsDict) (env : Env) :
    ∃ ds, GenericDataSet.init fp ff la sa v cr fa = .ok ds ∧
      (pyLower ff ∈ NON_FILE_SYSTEM_TARGETS →
        (GenericDataSet.load env ds).result
            = .error (.dataSetError (unsupported_target_msg (pyLower ff))) ∧
        (GenericDataSet.save env ds).result
            = .error (.dataSetError (unsupported_target_msg (pyLower ff)))) ∧
      (pyLower ff ∉ NON_FILE_SYSTEM_TARGETS →
        env.pandas_has ("read_" ++ pyLower ff) = false →
        ∀ p, env.load_path = .ok p →
          (GenericDataSet.load env ds).result
              = .error (.dataSetError (read_method_missing_msg (pyLower ff)))) ∧
      (pyLower ff ∉ NON_FILE_SYSTEM_TARGETS →
        env.data_has ("to_" ++ pyLower ff) = false →
        ∀ p, env.save_path = .ok p →
          (GenericDataSet.save env ds).result
              = .error (.dataSetError (to_method_missing_msg (pyLower ff)))) := by
  refine ⟨_, rfl, ?_, ?_, ?_⟩
  · intro h
    constructor <;>
      simp [GenericDataSet.load, GenericDataSet.save,
        GenericDataSet.ensure_file_system_target, h]
  · intro h hp p hl
    simp [GenericDataSet.load, GenericDataSet.ensure_file_system_target, h, hp, hl]
  · intro h hd p hs
    simp [GenericDataSet.save, GenericDataSet.ensure_file_system_target, h, hd, hs]

/-- Witness for C4 at the unrecognized format string `totallyfake`:
construction succeeds and the error surfaces at load time. -/
theorem C4_witness :
    ∃ ds, GenericDataSet.init "data/f.csv" "totallyfake" none none none none none
        = .ok ds ∧
      (GenericDataSet.load envNone ds).result
        = .error (.dataSetError (read_method_missing_msg (pyLower "totallyfake"))) := by
  obtain ⟨ds, hok, _, hread, _⟩ :=
    C4_construction_never_raises "data/f.csv" "totallyfake" none none none none none envNone
  exact ⟨ds, hok, hread (by decide) rfl "data/f.csv" rfl⟩

/-- C5 (counterexample): a successful versioned save whose resolved save path
differs from the dataset's base filepath receives no cache invalidation on
the resolved save path — the code invalidates the base filepath instead. -/
theorem C5_counterexample :
    envSaveOk.save_path = .ok "data/f.csv/v1/f.csv" ∧
    (GenericDataSet.save envSaveOk dsVersioned).result = .ok () ∧
    Event.invalidateCache (get_filepath_str "data/f.csv/v1/f.csv" dsVersioned.protocol)
      ∉ (GenericDataSet.save envSaveOk dsVersioned).events := by
  refine ⟨rfl, by decide, by decide⟩

/-- C5 (amended): the cache invalidation targets the dataset's
protocol-qualified base filepath (`_invalidate_cache` uses `self._filepath`,
which coincides with the resolved save path only when unversioned); it
happens exactly when the save completes successfully — on a writer failure or
an earlier failure no invalidation of any path occurs — and release also
invalidates the same base-filepath entry. -/
theorem C5_amended_cache_invalidation (env : Env) (ds : GenericDataSet) :
    ((GenericDataSet.save env ds).result = .ok () ↔
      Event.invalidateCache ds.invalidate_cache_path
        ∈ (GenericDataSet.save env ds).events) ∧
    ((GenericDataSet.save env ds).result ≠ .ok () →
      ∀ q, Event.invalidateCache q ∉ (GenericDataSet.save env ds).events) ∧
    (GenericDataSet.release ds).events = [Event.invalidateCache ds.invalidate_cache_path] := by
  refine ⟨?_, ?_, rfl⟩
  · simp only [GenericDataSet.save, GenericDataSet.ensure_file_system_target]
    rcases hm : NON_FILE_SYSTEM_TARGETS.contains ds.file_format
    · rcases env.save_path <;> rcases hp : env.data_has ("to_" ++ ds.file_format) <;>
        rcases env.writer <;> simp_all
    · simp_all
  · intro hr q
    simp only [GenericDataSet.save, GenericDataSet.ensure_file_system_target] at hr ⊢
    rcases hm : NON_FILE_SYSTEM_TARGETS.contains ds.file_format <;>
      rcases hs : env.save_path <;>
      rcases hp : env.data_has ("to_" ++ ds.file_format) <;>
      rcases hw : env.writer <;>
      simp_all

/-- Witness for the amended C5 at the concrete successful versioned save. -/
theorem C5_witness :
    (GenericDataSet.save envSaveOk dsVersioned).result = .ok () ↔
      Event.invalidateCache dsVersioned.invalidate_cache_path
        ∈ (GenericDataSet.save envSaveOk dsVersioned).events :=
  (C5_amended_cache_invalidation envSaveOk dsVersioned).1

/-- C6: evaluation of the construction at the failing input — with no
explicit modes supplied, the stored load-direction open options hold no
`mode` key at all (the class docstring and the spec say the load mode is set
to read), while the save-direction open options default to `w`; explicitly
supplied modes are preserved unchanged in both directions. -/
theorem C6_open_args_mode_evaluation :
    (∃ ds, GenericDataSet.init "data/f.csv" "csv" none none none none none = .ok ds ∧
      ds.fs_open_args_load.lookup "mode" = none ∧
      ds.fs_open_args_save.lookup "mode" = some (.str "w")) ∧
    (∃ ds, GenericDataSet.init "data/f.csv" "csv" none none none none
        (some [("open_args_load", .dict [("mode", .str "rb")]),
               ("open_args_save", .dict [("mode", .str "a")])]) = .ok ds ∧
      ds.fs_open_args_load.lookup "mode" = some (.str "rb") ∧
      ds.fs_open_args_save.lookup "mode" = some (.str "a")) :=
  ⟨⟨_, rfl, by decide, by decide⟩, ⟨_, rfl, by decide, by decide⟩⟩

/-- C7: the existence check converts a load-path-resolution `DataSetError`
into `false` instead of raising; on successful resolution it returns exactly
the filesystem backend's existence predicate on the resolved path; load and
save propagate the resolution failure instead. -/
theorem C7_exists_false_on_resolution_failure (env : Env) (ds : GenericDataSet) :
    (∀ m, env.load_path = .error (.dataSetError m) →
        (GenericDataSet.existsOp env ds).result = .ok false) ∧
    (∀ p, env.load_path = .ok p →
        (GenericDataSet.existsOp env ds).result
          = .ok (env.fs_exists (get_filepath_str p ds.protocol))) ∧
    (∀ m, env.load_path = .error (.dataSetError m) →
        ds.file_format ∉ NON_FILE_SYSTEM_TARGETS →
        (GenericDataSet.load env ds).result = .error (.dataSetError m)) ∧
    (∀ m, env.save_path = .error (.dataSetError m) →
        ds.file_format ∉ NON_FILE_SYSTEM_TARGETS →
        (GenericDataSet.save env ds).result = .error (.dataSetError m)) := by
  refine ⟨?_, ?_, ?_, ?_⟩
  · intro m hm; simp [GenericDataSet.existsOp, hm]
  · intro p hp; simp [GenericDataSet.existsOp, hp]
  · intro m hm h1
    simp [GenericDataSet.load, GenericDataSet.ensure_file_system_target, hm, h1]
  · intro m hm h1
    simp [GenericDataSet.save, GenericDataSet.ensure_file_system_target, hm, h1]

/-- Witness for C7: with no versioned instance saved, existence is `false`
while load propagates the resolution error. -/
theorem C7_witness :
    (GenericDataSet.existsOp envNoVersion dsCsv).result = .ok false ∧
    (GenericDataSet.load envNoVersion dsCsv).result
      = .error (.dataSetError "no versions") :=
  ⟨(C7_exists_false_on_resolution_failure envNoVersion dsCsv).1 "no versions" rfl,
   (C7_exists_false_on_resolution_failure envNoVersion dsCsv).2.2.1 "no versions" rfl
     (by decide)⟩

/-- C8: every load or save run opens at most one filesystem handle, the
number of opens equals the number of closes, and every opened path is closed
— on every exit path, including a raising reader or writer. -/
theorem C8_single_scoped_handle (env : Env) (ds : GenericDataSet) :
    (((GenericDataSet.load env ds).events.filter isOpenEv).length
        = ((GenericDataSet.load env ds).events.filter isCloseEv).length) ∧
    (((GenericDataSet.load env ds).events.filter isOpenEv).length ≤ 1) ∧
    (∀ q args, Event.fsOpen q args ∈ (GenericDataSet.load env ds).events →
        Event.fsClose q ∈ (GenericDataSet.load env ds).events) ∧
    (((GenericDataSet.save env ds).events.filter isOpenEv).length
        = ((GenericDataSet.save env ds).events.filter isCloseEv).length) ∧
    (((GenericDataSet.save env ds).events.filter isOpenEv).length ≤ 1) ∧
    (∀ q args, Event.fsOpen q args ∈ (GenericDataSet.save env ds).events →
        Event.fsClose q ∈ (GenericDataSet.save env ds).events) := by
  simp only [GenericDataSet.load, GenericDataSet.save, GenericDataSet.ensure_file_system_target]
  rcases hm : NON_FILE_SYSTEM_TARGETS.contains ds.file_format <;>
    rcases hl : env.load_path <;>
    rcases hs : env.save_path <;>
    rcases hp : env.pandas_has ("read_" ++ ds.file_format) <;>
    rcases hd : env.data_has ("to_" ++ ds.file_format) <;>
    rcases hr : env.reader <;>
    rcases hw : env.writer <;>
    simp_all [isOpenEv, isCloseEv]

/-- Witness for C8 at a run in which the writer raises after the open. -/
theorem C8_witness :
    ((GenericDataSet.save envNone dsVersioned).events.filter isOpenEv).length
      = ((GenericDataSet.save envNone dsVersioned).events.filter isCloseEv).length :=
  (C8_single_scoped_handle envNone dsVersioned).2.2.2.1

/-- C9: the stored `file_format` is the lowercase of the constructor argument
and no operation (load, save, exists, describe, release) changes it. -/
theorem C9_file_format_lowercase_immutable
    (fp ff : String) (la sa : Option Dict) (v : Option Version)
    (cr : Option Dict) (fa : Option FsDict) (env : Env) (ds : GenericDataSet) :
    (∃ d0, GenericDataSet.init fp ff la sa v cr fa = .ok d0 ∧
        d0.file_format = pyLower ff) ∧
    (GenericDataSet.load env ds).post.file_format = ds.file_format ∧
    (GenericDataSet.save env ds).post.file_format = ds.file_format ∧
    (GenericDataSet.existsOp env ds).post.file_format = ds.file_format ∧
    (GenericDataSet.describe ds).post.file_format = ds.file_format ∧
    (GenericDataSet.release ds).post.file_format = ds.file_format := by
  refine ⟨⟨_, rfl, rfl⟩, ?_, ?_, ?_, rfl, rfl⟩
  · simp only [GenericDataSet.load, GenericDataSet.ensure_file_system_target]
    rcases hm : NON_FILE_SYSTEM_TARGETS.contains ds.file_format <;>
      rcases hl : env.load_path <;>
      rcases hp : env.pandas_has ("read_" ++ ds.file_format) <;>
      rcases hr : env.reader <;>
      simp_all
  · simp only [GenericDataSet.save, GenericDataSet.ensure_file_system_target]
    rcases hm : NON_FILE_SYSTEM_TARGETS.contains ds.file_format <;>
      rcases hs : env.save_path <;>
      rcases hd : env.data_has ("to_" ++ ds.file_format) <;>
      rcases hw : env.writer <;>
      simp_all
  · simp only [GenericDataSet.existsOp]
    rcases hl : env.load_path with e | p
    · rcases e <;> simp_all
    · simp_all

/-- Witness for C9 at a mixed-case format string. -/
theorem C9_witness :
    ∃ d0, GenericDataSet.init "data/f.csv" "CSV" none none none none none = .ok d0 ∧
      d0.file_format = pyLower "CSV" :=
  (C9_file_format_lowercase_immutable "data/f.csv" "CSV" none none none none none
    envNone dsCsv).1

/-- C10: the heap-model construction leaves every pre-existing store cell —
in particular every caller-supplied dictionary, `fs_args` and its nested
open-args dictionaries, `credentials`, `load_args` and `save_args` —
unchanged: `fs_args` and `credentials` are deep-copied before the reserved
keys are popped, and the option merges write only into freshly allocated
copies of the class defaults. -/
theorem C10_construction_preserves_caller_dicts
    (st : Store) (fp : String) (la sa cr fa : Option Ref)
    (i : Nat) (hi : i < st.length) :
    Store.read (GenericDataSet.initH st fp la sa cr fa).store i = Store.read st i := by
  simp only [GenericDataSet.initH]
  have hn : st.length ≤ st.length := Nat.le_refl _
  obtain ⟨a1, a2, a3, a4⟩ := dcOrEmpty_spec st.length st fa hn
  set s1 := dcOrEmpty st fa with hs1
  obtain ⟨b1, b2, b3, b4⟩ :=
    hPopRef_spec st.length s1.fst s1.snd "open_args_load" a1.1 a2 a3 a4
  set s2 := hPopRef s1.fst s1.snd "open_args_load" with hs2
  obtain ⟨c1, c2, c3, c4⟩ :=
    hPopRef_spec st.length s2.fst s1.snd "open_args_save" b1.1 a2 b3 b4
  set s3 := hPopRef s2.fst s1.snd "open_args_save" with hs3
  obtain ⟨d1, _, _, _⟩ := dcOrEmpty_spec st.length s3.fst cr c1.1
  set s4 := dcOrEmpty s3.fst cr with hs4
  have e : Pres st.length s4.fst
      (if ((get_protocol_and_path fp).fst == "file")
        then hSetdefault s4.fst s1.snd "auto_mkdir" (HVal.prim (PyVal.bool true))
        else s4.fst) := by
    by_cases hb : ((get_protocol_and_path fp).fst == "file") = true
    · rw [if_pos hb]
      exact hSetdefault_spec st.length s4.fst s1.snd "auto_mkdir"
        (HVal.prim (PyVal.bool true)) d1.1 a2
    · rw [if_neg hb]
      exact pres_refl st.length s4.fst d1.1
  set s5 := (if ((get_protocol_and_path fp).fst == "file")
        then hSetdefault s4.fst s1.snd "auto_mkdir" (HVal.prim (PyVal.bool true))
        else s4.fst) with hs5
  have f := hMergeDefaults_spec st.length s5 la e.1
  set s6 := hMergeDefaults s5 la with hs6
  have g := hMergeDefaults_spec st.length s6.fst sa f.1
  set s7 := hMergeDefaults s6.fst sa with hs7
  have h8 := hSetdefault_spec st.length s7.fst s3.snd "mode" (HVal.prim (PyVal.str "w")) g.1 c2
  exact (pres_trans a1 (pres_trans b1 (pres_trans c1 (pres_trans d1
    (pres_trans e (pres_trans f (pres_trans g h8))))))).2 i hi

/-- Witness for C10 at the concrete caller store: the caller's `fs_args`
dictionary (cell 0), its nested `open_args_save` dictionary (cell 1) and the
caller's `load_args` dictionary (cell 2) are unchanged by construction. -/
theorem C10_witness :
    0 < stCaller.length ∧ 1 < stCaller.length ∧ 2 < stCaller.length ∧
    Store.read (GenericDataSet.initH stCaller "data/f.csv" (some 2) none none (some 0)).store 0
      = Store.read stCaller 0 ∧
    Store.read (GenericDataSet.initH stCaller "data/f.csv" (some 2) none none (some 0)).store 1
      = Store.read stCaller 1 ∧
    Store.read (GenericDataSet.initH stCaller "data/f.csv" (some 2) none none (some 0)).store 2
      = Store.read stCaller 2 :=
  ⟨by decide, by decide, by decide,
   C10_construction_preserves_caller_dicts stCaller "data/f.csv" (some 2) none none (some 0)
     0 (by decide),
   C10_construction_preserves_caller_dicts stCaller "data/f.csv" (some 2) none none (some 0)
     1 (by decide),
   C10_construction_preserves_caller_dicts stCaller "data/f.csv" (some 2) none none (some 0)
     2 (by decide)⟩
